import Mathlib

/-!
Shallow embedding of `bims/api_views/module_summary.py`: the reporting
service of the django-bims fragment.  The relational store is modelled as
explicit lists of rows; Django queryset operations (filter, values,
annotate/Count, distinct, exclude, slicing) become the corresponding list
operations.  Python dicts are association lists built with
insert-or-replace semantics; `dict(...)` of a grouped queryset becomes
`groupCount`.  The two class-constant lookup tables
(`Taxonomy.CATEGORY_CHOICES`, `IUCNStatus.CATEGORY_CHOICES`) live outside
this file's source fragment, so they are carried as data in the store and
all results are stated relative to them.  `Taxonomy.parent_by_rank` (the
rank-walk, also outside the fragment) is carried as an abstract function
in the store.
-/

namespace BimsModuleSummary

/-- Python `a.isPrefixOf`-style test on character lists. -/
def leadsWith : List Char → List Char → Bool
  | [], _ => true
  | _ :: _, [] => false
  | a :: as, b :: bs => a == b && leadsWith as bs

/-- Python `needle in hay` on character lists: contiguous substring test. -/
def containsSub (needle : List Char) : List Char → Bool
  | [] => needle.isEmpty
  | c :: cs => leadsWith needle (c :: cs) || containsSub needle cs

/-- Python `needle.lower() in hay.lower()` / Django `icontains`. -/
def icontains (needle hay : String) : Bool :=
  containsSub (needle.data.map Char.toLower) (hay.data.map Char.toLower)

/-- Python dict assignment `d[k] = v`: replace in place, else append. -/
def dictUpsert {β : Type} (d : List (String × β)) (k : String) (v : β) :
    List (String × β) :=
  if d.any (fun kv => kv.1 == k) then
    d.map (fun kv => if kv.1 == k then (k, v) else kv)
  else d ++ [(k, v)]

/-- Django `.values(f).annotate(count=Count(f))` turned into a dict:
one entry per distinct value with its multiplicity. -/
def groupCount (l : List String) : List (String × Nat) :=
  l.dedup.map (fun k => (k, l.count k))

/-- Row of `bims.models.TaxonGroup` (fields used by this module). -/
structure TaxonGroup where
  id : Nat
  name : String
  category : String
  chart_data : String
  display_order : Nat
  logo : Option String
deriving DecidableEq, Repr

/-- Row of `bims.models.taxonomy.Taxonomy` (fields used by this module).
`iucn_status` is the category code of the related IUCNStatus row when the
reference is non-null; `division` is `additional_data['Division']`. -/
structure Taxonomy where
  id : Nat
  canonical_name : String
  scientific_name : String
  rank : String
  order_name : String
  family_name : String
  origin : String
  iucn_status : Option String
  endemism : Option String
  division : Option String
deriving DecidableEq, Repr

/-- Row of `bims.models.BiologicalCollectionRecord` (fields used here). -/
structure CollectionRecord where
  id : Nat
  module_group : Nat
  taxonomy : Nat
  site : Nat
  survey : Nat
deriving DecidableEq, Repr

/-- Row of `sass.models.site_visit_taxon.SiteVisitTaxon`; `condition` is
the (category, colour) of the site visit's ecological condition when
non-null. -/
structure SiteVisitTaxonRow where
  id : Nat
  condition : Option (String × String)
deriving DecidableEq, Repr

/-- Row of `bims.models.Survey` (fields used here). -/
structure SurveyRow where
  id : Nat
  owner_username : String
deriving DecidableEq, Repr

/-- Row of the user model (fields used here). -/
structure UserAccount where
  id : Nat
  last_login : Option Nat
deriving DecidableEq, Repr

/-- The relational store the module queries, plus the two class-constant
lookup tables and the rank-walk, which live outside this source fragment
and are therefore carried as parameters. -/
structure Store where
  taxonGroups : List TaxonGroup
  records : List CollectionRecord
  taxonomies : List Taxonomy
  siteVisits : List Nat
  siteVisitTaxa : List SiteVisitTaxonRow
  surveys : List SurveyRow
  users : List UserAccount
  downloadRequests : List Nat
  origin_category : List (String × String)
  iucn_category : List (String × String)
  parent_by_rank : Nat → String → Option Taxonomy

/-- `TaxonGroup.objects.get(id=taxon_group_id)`, as a partial lookup. -/
def findTaxonGroup (s : Store) (gid : Nat) : Option TaxonGroup :=
  s.taxonGroups.find? (fun g => g.id == gid)

/-- `BiologicalCollectionRecord.objects.filter(module_group=taxon_group)`. -/
def recordsOf (s : Store) (g : TaxonGroup) : List CollectionRecord :=
  s.records.filter (fun r => r.module_group == g.id)

/-- `collections.values_list('taxonomy', flat=True).distinct()`. -/
def uniqueTaxonomyIds (s : Store) (g : TaxonGroup) : List Nat :=
  ((recordsOf s g).map (fun r => r.taxonomy)).dedup

/-- `Taxonomy.objects.filter(id__in=unique_taxonomy_ids)`. -/
def taxonomiesOf (s : Store) (g : TaxonGroup) : List Taxonomy :=
  s.taxonomies.filter (fun t => (uniqueTaxonomyIds s g).contains t.id)

/-- Resolve a record's taxonomy foreign key. -/
def taxById (s : Store) (tid : Nat) : Option Taxonomy :=
  s.taxonomies.find? (fun t => t.id == tid)

/-- The taxonomy row joined to each collection record (one entry per
record, inner-join semantics), as used by the chart queries. -/
def joinedTaxonomies (s : Store) (g : TaxonGroup) : List Taxonomy :=
  (recordsOf s g).filterMap (fun r => taxById s r.taxonomy)

/-- Per-record `taxonomy__additional_data__Division` values. -/
def divisionValues (s : Store) (g : TaxonGroup) : List (Option String) :=
  (joinedTaxonomies s g).map (fun t => t.division)

/-- The `division` chart: group by Division value (nulls kept as a group);
`Count(field)` counts only non-null field values, so the null group
reports 0. -/
def divisionData (s : Store) (g : TaxonGroup) : List (Option String × Nat) :=
  (divisionValues s g).dedup.map
    (fun k => (k, if k.isSome then (divisionValues s g).count k else 0))

/-- Per-record `taxonomy__origin` values. -/
def originCodes (s : Store) (g : TaxonGroup) : List String :=
  (joinedTaxonomies s g).map (fun t => t.origin)

/-- Origin values after `.exclude(taxonomy__origin__exact='')`. -/
def originCodesNE (s : Store) (g : TaxonGroup) : List String :=
  (originCodes s g).filter (fun c => c != "")

/-- `origin_data`: the grouped origin counts of the `origin` chart. -/
def groupedOrigin (s : Store) (g : TaxonGroup) : List (String × Nat) :=
  groupCount (originCodesNE s g)

/-- The translation loop of the `origin` chart, with the accumulated
python dict threaded through: `origin_category[key]` raises KeyError when
the code is absent from the lookup, aborting the loop. -/
def translateLoopE (table : List (String × String)) :
    List (String × Nat) → List (String × Nat) → Except Unit (List (String × Nat))
  | [], d => Except.ok d
  | kc :: l, d =>
    match table.lookup kc.1 with
    | some lbl => translateLoopE table l (dictUpsert d lbl kc.2)
    | none => Except.error ()

/-- `updated_origin_data` of the `origin` chart, starting from the empty
dict. -/
def translateDictE (table : List (String × String)) (l : List (String × Nat)) :
    Except Unit (List (String × Nat)) :=
  translateLoopE table l []

/-- The translation loop of the default (conservation-status) branch:
`if key in iucn_category` silently skips codes absent from the lookup. -/
def translateLoop (table : List (String × String)) :
    List (String × Nat) → List (String × Nat) → List (String × Nat)
  | [], d => d
  | kc :: l, d =>
    match table.lookup kc.1 with
    | some lbl => translateLoop table l (dictUpsert d lbl kc.2)
    | none => translateLoop table l d

/-- `updated_summary` of the default branch, starting from the empty
dict. -/
def translateDict (table : List (String × String)) (l : List (String × Nat)) :
    List (String × Nat) :=
  translateLoop table l []

/-- Per-record endemism name, `'Unknown'` when the reference is null. -/
def endemismValues (s : Store) (g : TaxonGroup) : List String :=
  (joinedTaxonomies s g).map (fun t => t.endemism.getD "Unknown")

/-- The `endemism` chart data. -/
def endemismData (s : Store) (g : TaxonGroup) : List (String × Nat) :=
  groupCount (endemismValues s g)

/-- One row of the `sass` chart's `ecological_data`. -/
structure EcoRow where
  value : String
  count : Nat
  color : String
deriving DecidableEq, Repr

/-- All SiteVisitTaxon rows whose site visit has a non-null ecological
condition, as (category, colour) pairs: the base queryset of the `sass`
chart.  Note the query does not filter by the taxon group. -/
def ecoPairs (s : Store) : List (String × String) :=
  s.siteVisitTaxa.filterMap (fun row => row.condition)

/-- `ecological_data`: group by (category, colour), count, order by
category ascending. -/
def ecoData (s : Store) : List EcoRow :=
  ((ecoPairs s).dedup.map
    (fun vc => EcoRow.mk vc.1 ((ecoPairs s).count vc) vc.2)).mergeSort
      (fun a b => decide (a.value ≤ b.value))

/-- Per-record conservation-status value of the default branch: records
with empty origin excluded, null status references read as
`'Not evaluated'`. -/
def csValues (s : Store) (g : TaxonGroup) : List String :=
  ((joinedTaxonomies s g).filter (fun t => t.origin != "")).map
    (fun t => t.iucn_status.getD "Not evaluated")

/-- `summary_temp`: the grouped conservation-status counts. -/
def groupedCS (s : Store) (g : TaxonGroup) : List (String × Nat) :=
  groupCount (csValues s g)

/-- Count of distinct non-empty order names among the group's taxonomies
(the python set `order_names`). -/
def orderNameCount (s : Store) (g : TaxonGroup) : Nat :=
  ((taxonomiesOf s g).filterMap
    (fun t => if t.order_name = "" then none else some t.order_name)).dedup.length

/-- Count of distinct non-empty family names among the group's taxonomies
(the python set `family_names`). -/
def familyNameCount (s : Store) (g : TaxonGroup) : Nat :=
  ((taxonomiesOf s g).filterMap
    (fun t => if t.family_name = "" then none else some t.family_name)).dedup.length

/-- Count of the group's taxonomies with rank SPECIES or SUBSPECIES. -/
def speciesCount (s : Store) (g : TaxonGroup) : Nat :=
  ((taxonomiesOf s g).filter
    (fun t => t.rank == "SPECIES" || t.rank == "SUBSPECIES")).length

/-- The dict returned by `ModuleSummary.module_summary_data`; chart
sections not produced by the selected branch are `none`. -/
structure ModuleSummaryData where
  division : Option (List (Option String × Nat))
  origin : Option (List (String × Nat))
  endemism : Option (List (String × Nat))
  ecological_data : Option (List EcoRow)
  total_sass : Option Nat
  conservation_status : Option (List (String × Nat))
  taxon_group_id : Nat
  orders_total : Nat
  families_total : Nat
  species_total : Nat
  icon : Option String
  total : Nat
  total_site : Nat
  total_site_visit : Nat
deriving DecidableEq, Repr

deriving instance DecidableEq for Except

/-- The summary fields computed after the chart branch, common to every
chart mode (the chart sections still unset). -/
def msdBase (s : Store) (g : TaxonGroup) : ModuleSummaryData :=
  { division := none, origin := none, endemism := none,
    ecological_data := none, total_sass := none, conservation_status := none,
    taxon_group_id := g.id,
    orders_total := orderNameCount s g,
    families_total := familyNameCount s g,
    species_total := speciesCount s g,
    icon := g.logo,
    total := (recordsOf s g).length,
    total_site := ((recordsOf s g).map (fun r => r.site)).dedup.length,
    total_site_visit := ((recordsOf s g).map (fun r => r.survey)).dedup.length }

/-- `ModuleSummary.module_summary_data`.  The `origin` branch is the only
one that can fail (KeyError on a code missing from the lookup). -/
def module_summary_data (s : Store) (g : TaxonGroup) :
    Except Unit ModuleSummaryData :=
  if g.chart_data = "division" then
    Except.ok { msdBase s g with division := some (divisionData s g) }
  else if g.chart_data = "origin" then
    match translateDictE s.origin_category (groupedOrigin s g) with
    | Except.ok tr => Except.ok { msdBase s g with origin := some tr }
    | Except.error e => Except.error e
  else if g.chart_data = "endemism" then
    Except.ok { msdBase s g with endemism := some (endemismData s g) }
  else if g.chart_data = "sass" then
    Except.ok { msdBase s g with ecological_data := some (ecoData s),
                                 total_sass := some s.siteVisits.length }
  else
    Except.ok { msdBase s g with
      conservation_status := some (translateDict s.iucn_category (groupedCS s g)) }

/-- The dict returned by `ModuleSummary.general_summary_data`. -/
structure GeneralSummary where
  total_occurrences : Nat
  total_taxa : Nat
  total_users : Nat
  total_uploads : Nat
  total_downloads : Nat
deriving DecidableEq, Repr

/-- `TaxonGroup.objects.filter(category=SPECIES_MODULE.name)`. -/
def speciesModuleGroups (s : Store) : List TaxonGroup :=
  s.taxonGroups.filter (fun g => g.category == "SPECIES_MODULE")

/-- `ModuleSummary.general_summary_data`: the accumulation loop over
species-module groups plus the three global counts. -/
def general_summary_data (s : Store) : GeneralSummary :=
  let counts := (speciesModuleGroups s).foldl
    (fun acc g =>
      (acc.1 + (recordsOf s g).length, acc.2 + (uniqueTaxonomyIds s g).length))
    (0, 0)
  { total_occurrences := counts.1,
    total_taxa := counts.2,
    total_users := (s.users.filter (fun u => u.last_login.isSome)).length,
    total_uploads := (s.surveys.filter (fun sv =>
      !(icontains "gbif" sv.owner_username || icontains "admin" sv.owner_username ||
        icontains "map_vm" sv.owner_username))).length,
    total_downloads := s.downloadRequests.length }

/-- One entry of the orders endpoint's `data`. -/
structure OrderItem where
  id : Option Nat
  name : String
  scientific_name : String
deriving DecidableEq, Repr

/-- One entry of the families endpoint's `data`. -/
structure FamilyItem where
  id : Option Nat
  name : String
  scientific_name : String
  order_name : String
deriving DecidableEq, Repr

/-- One entry of the species endpoint's `data`. -/
structure SpeciesItem where
  id : Nat
  name : String
  scientific_name : String
  rank : String
  family_name : String
  order_name : String
  conservation_status : String
  origin : String
deriving DecidableEq, Repr

/-- The successful JSON body of the three listing endpoints. -/
structure ListResponse (α : Type) where
  taxon_group_id : Nat
  taxon_group_name : String
  data : List α
  total : Nat
  page : Nat
  page_size : Nat
  has_next : Bool
  has_previous : Bool
deriving DecidableEq, Repr

/-- Outcome of a listing request: an HTTP error response with its body
message, an unhandled NameError (no response produced), or a success
body. -/
inductive ApiResult (α : Type) where
  | failure (status : Nat) (error : String)
  | nameError
  | ok (response : ListResponse α)
deriving DecidableEq, Repr

/-- The `data` field of a successful result, `[]` otherwise. -/
def dataOf {α : Type} : ApiResult α → List α
  | ApiResult.ok r => r.data
  | _ => []

/-- The dict a taxonomy contributes to `orders_data`. -/
def mkOrderItem (s : Store) (t : Taxonomy) : OrderItem :=
  match s.parent_by_rank t.id "ORDER" with
  | some ot => { id := some ot.id, name := t.order_name,
                 scientific_name := ot.scientific_name }
  | none => { id := none, name := t.order_name, scientific_name := t.order_name }

/-- `orders_data`: the dict keyed by order name, built over the group's
taxonomies, keeping only non-empty names matching the search. -/
def ordersDict (s : Store) (g : TaxonGroup) (search : String) :
    List (String × OrderItem) :=
  (taxonomiesOf s g).foldl (fun d t =>
    if t.order_name != "" then
      if icontains search t.order_name then
        dictUpsert d t.order_name (mkOrderItem s t)
      else d
    else d) []

/-- `orders_list` after the sort by name: the full pre-pagination list. -/
def ordersFullList (s : Store) (g : TaxonGroup) (search : String) :
    List OrderItem :=
  ((ordersDict s g search).map Prod.snd).mergeSort
    (fun a b => decide (a.name ≤ b.name))

/-- The dict a taxonomy contributes to `families_data`. -/
def mkFamilyItem (s : Store) (t : Taxonomy) : FamilyItem :=
  match s.parent_by_rank t.id "FAMILY" with
  | some ft => { id := some ft.id, name := t.family_name,
                 scientific_name := ft.scientific_name,
                 order_name := t.order_name }
  | none => { id := none, name := t.family_name,
              scientific_name := t.family_name, order_name := t.order_name }

/-- `families_data`: the dict keyed by family name. -/
def familiesDict (s : Store) (g : TaxonGroup) (search : String) :
    List (String × FamilyItem) :=
  (taxonomiesOf s g).foldl (fun d t =>
    if t.family_name != "" then
      if icontains search t.family_name then
        dictUpsert d t.family_name (mkFamilyItem s t)
      else d
    else d) []

/-- `families_list` after the sort by name. -/
def familiesFullList (s : Store) (g : TaxonGroup) (search : String) :
    List FamilyItem :=
  ((familiesDict s g search).map Prod.snd).mergeSort
    (fun a b => decide (a.name ≤ b.name))

/-- The response assembly shared verbatim by the orders and families
endpoints: slice `[start:end]` of the full list with `start=(page-1)*P`,
`end=start+P`, and the `has_next`/`has_previous` flags.  Page and page
size are the parsed non-negative query integers (claims quantify over
`page ≥ 1`, where Nat and python int arithmetic agree). -/
def mkListResponse {α : Type} (gid : Nat) (gname : String) (full : List α)
    (p P : Nat) : ListResponse α :=
  { taxon_group_id := gid, taxon_group_name := gname,
    data := (full.drop ((p - 1) * P)).take P,
    total := full.length, page := p, page_size := P,
    has_next := decide ((p - 1) * P + P < full.length),
    has_previous := decide (1 < p) }

/-- `TaxonGroupOrdersAPIView.get`. -/
def ordersEndpoint (s : Store) (gid p P : Nat) (search : String) :
    ApiResult OrderItem :=
  match findTaxonGroup s gid with
  | none => ApiResult.failure 404 "Taxon group not found"
  | some g => ApiResult.ok (mkListResponse gid g.name (ordersFullList s g search) p P)

/-- `TaxonGroupFamiliesAPIView.get`. -/
def familiesEndpoint (s : Store) (gid p P : Nat) (search : String) :
    ApiResult FamilyItem :=
  match findTaxonGroup s gid with
  | none => ApiResult.failure 404 "Taxon group not found"
  | some g => ApiResult.ok (mkListResponse gid g.name (familiesFullList s g search) p P)

/-- The species queryset: the group's taxonomies restricted to rank
SPECIES or SUBSPECIES. -/
def speciesTaxonomies (s : Store) (g : TaxonGroup) : List Taxonomy :=
  s.taxonomies.filter (fun t =>
    (uniqueTaxonomyIds s g).contains t.id &&
      (t.rank == "SPECIES" || t.rank == "SUBSPECIES"))

/-- One formatted row of the species endpoint. -/
def formatSpecies (s : Store) (t : Taxonomy) : SpeciesItem :=
  { id := t.id,
    name := if t.canonical_name ≠ "" then t.canonical_name else t.scientific_name,
    scientific_name := t.scientific_name,
    rank := t.rank,
    family_name := t.family_name,
    order_name := t.order_name,
    conservation_status := t.iucn_status.getD "Not evaluated",
    origin := if t.origin = "" then "Unknown"
              else (s.origin_category.lookup t.origin).getD "Unknown" }

/-- The full (pre-pagination) formatted species list at empty search. -/
def speciesFullList (s : Store) (g : TaxonGroup) : List SpeciesItem :=
  (speciesTaxonomies s g).map (formatSpecies s)

/-- `TaxonGroupSpeciesAPIView.get`.  With a non-empty search term the
view evaluates `models.Q(...)`, and the name `models` is neither imported
nor defined in the module, so the request dies with a NameError before
any response is produced. -/
def speciesEndpoint (s : Store) (gid p P : Nat) (search : String) :
    ApiResult SpeciesItem :=
  match findTaxonGroup s gid with
  | none => ApiResult.failure 404 "Taxon group not found"
  | some g =>
    if search ≠ "" then ApiResult.nameError
    else
      let filtered := speciesTaxonomies s g
      ApiResult.ok {
        taxon_group_id := gid, taxon_group_name := g.name,
        data := ((filtered.drop ((p - 1) * P)).take P).map (formatSpecies s),
        total := filtered.length, page := p, page_size := P,
        has_next := decide ((p - 1) * P + P < filtered.length),
        has_previous := decide (1 < p) }

/-- The item domain of the orders listing: the (possibly repeated)
non-empty order names among the group's taxonomies. -/
def orderNamesOf (s : Store) (g : TaxonGroup) : List String :=
  (taxonomiesOf s g).filterMap
    (fun t => if t.order_name = "" then none else some t.order_name)

/-- The item domain of the families listing. -/
def familyNamesOf (s : Store) (g : TaxonGroup) : List String :=
  (taxonomiesOf s g).filterMap
    (fun t => if t.family_name = "" then none else some t.family_name)

/-- The conservation-status section as the claim words it: group the
per-record status values (empty-origin records excluded, null references
read as Not evaluated), keep exactly the codes present in the IUCN lookup
table, translating each kept code to its label. -/
def iucnSpec (s : Store) (g : TaxonGroup) : List (String × Nat) :=
  (csValues s g).dedup.filterMap (fun v =>
    (s.iucn_category.lookup v).map (fun lbl => (lbl, (csValues s g).count v)))

/-- Correct pagination of a fixed full list by an endpoint, at page `p`
and page size `P`: the response reports the full length as `total`,
`has_next` iff `p * P < total`, `has_previous` iff `p > 1`, the page
slice as `data`, and the concatenation of the data of pages `1..k`
reproduces the full list whenever `k` pages suffice. -/
def PaginatedOk {α : Type} (endpoint : Nat → Nat → ApiResult α)
    (full : List α) (p P : Nat) : Prop :=
  (∃ r, endpoint p P = ApiResult.ok r ∧ r.total = full.length ∧
    r.has_next = decide (p * P < full.length) ∧
    r.has_previous = decide (1 < p) ∧
    r.data = (full.drop ((p - 1) * P)).take P)
  ∧ ∀ k, full.length ≤ k * P →
      ((List.range k).map (fun i => dataOf (endpoint (i + 1) P))).flatten = full

/-- Combined pagination property of the three listing endpoints of a
resolved taxon group, at page `p`, page size `P` and a fixed search term;
the species endpoint only produces a response at the empty search term
(see the NameError analysis), so its part is conditional on that. -/
def PaginationClaim (s : Store) (gid : Nat) (g : TaxonGroup) (p P : Nat)
    (search : String) : Prop :=
  PaginatedOk (fun q Q => ordersEndpoint s gid q Q search) (ordersFullList s g search) p P
  ∧ PaginatedOk (fun q Q => familiesEndpoint s gid q Q search) (familiesFullList s g search) p P
  ∧ (search = "" →
      PaginatedOk (fun q Q => speciesEndpoint s gid q Q search) (speciesFullList s g) p P)

/-- What the origin chart does, per the claim: it fails with a KeyError
exactly when some grouped origin code is absent from the lookup,
otherwise it reports the translated grouped counts; and the grouped
counts are the per-code multiplicities of the non-empty origin codes of
the group's records. -/
def OriginChartClaim (s : Store) (g : TaxonGroup) : Prop :=
  ((∃ kc ∈ groupedOrigin s g, s.origin_category.lookup kc.1 = none) →
      module_summary_data s g = Except.error ())
  ∧ ((∀ kc ∈ groupedOrigin s g, (s.origin_category.lookup kc.1).isSome) →
      ∃ d, module_summary_data s g = Except.ok d ∧
        d.origin = some (translateDict s.origin_category (groupedOrigin s g)))
  ∧ (∀ code n, (code, n) ∈ groupedOrigin s g ↔
      code ≠ "" ∧ code ∈ originCodes s g ∧ n = (originCodes s g).count code)

/-- What the sass chart reports, per the implicit claim: both the
ecological data and the SiteVisit total are computed from the store
alone, with no filtering by the taxon group, so two sass-mode groups
always receive identical values; and the ecological counts cover exactly
the SiteVisitTaxon rows with a non-null ecological condition. -/
def SassHyperClaim (s : Store) (g g' : TaxonGroup) : Prop :=
  ∃ d d', module_summary_data s g = Except.ok d ∧
    module_summary_data s g' = Except.ok d' ∧
    d.ecological_data = some (ecoData s) ∧
    d'.ecological_data = some (ecoData s) ∧
    d.ecological_data = d'.ecological_data ∧
    d.total_sass = d'.total_sass ∧
    ((ecoData s).map EcoRow.count).sum = (ecoPairs s).length

/-- Concrete taxon group (default chart) for witnesses. -/
def wFish : TaxonGroup := ⟨1, "Fish", "SPECIES_MODULE", "default", 1, none⟩

/-- Concrete taxon group (origin chart) for witnesses. -/
def wInverts : TaxonGroup := ⟨2, "Invertebrates", "SPECIES_MODULE", "origin", 2, some "logo.png"⟩

/-- Concrete taxon group (sass chart) for witnesses. -/
def wAlgae : TaxonGroup := ⟨3, "Algae", "SPECIES_MODULE", "sass", 3, none⟩

/-- Second sass-chart taxon group for the hyperproperty witness. -/
def wOdonates : TaxonGroup := ⟨4, "Odonates", "SPECIES_MODULE", "sass", 4, none⟩

/-- Concrete taxonomy rows for witnesses. -/
def wTax1 : Taxonomy :=
  ⟨10, "Alpha fish", "Alphaus fishus", "SPECIES", "OrdA", "FamA",
   "indigenous", some "CR", some "Endemic", some "DivA"⟩

/-- Concrete taxonomy row with null references for witnesses. -/
def wTax2 : Taxonomy :=
  ⟨11, "Beta fish", "Betaus fishus", "SUBSPECIES", "OrdB", "FamB",
   "alien", none, none, none⟩

/-- Concrete non-species taxonomy row for witnesses. -/
def wTax3 : Taxonomy :=
  ⟨12, "", "Gammaus", "GENUS", "OrdA", "", "", some "XX", none, some "DivA"⟩

/-- Concrete store exercising every branch, shared by the witnesses. -/
def wStore : Store :=
  { taxonGroups := [wFish, wInverts, wAlgae, wOdonates],
    records := [⟨100, 1, 10, 5, 7⟩, ⟨101, 1, 11, 5, 8⟩, ⟨102, 1, 10, 6, 7⟩,
                ⟨103, 2, 12, 5, 7⟩],
    taxonomies := [wTax1, wTax2, wTax3],
    siteVisits := [1, 2, 3],
    siteVisitTaxa := [⟨1, some ("A", "blue")⟩, ⟨2, none⟩,
                      ⟨3, some ("A", "blue")⟩, ⟨4, some ("B", "red")⟩],
    surveys := [⟨1, "john"⟩, ⟨2, "GBIF_user"⟩, ⟨3, "the_admin"⟩],
    users := [⟨1, some 5⟩, ⟨2, none⟩],
    downloadRequests := [1, 2],
    origin_category := [("indigenous", "Native"), ("alien", "Non-Native")],
    iucn_category := [("CR", "Critically endangered"),
                      ("Not evaluated", "Not evaluated")],
    parent_by_rank := fun tid rk =>
      if tid == 10 && rk == "ORDER" then
        some ⟨90, "OrdA order", "Ordalia", "ORDER", "", "", "", none, none, none⟩
      else none }

/-- Store whose sole species-module group has a record whose origin code
is absent from the origin lookup: exercises the KeyError branch. -/
def wStoreBadOrigin : Store :=
  { wStore with
    records := wStore.records ++ [⟨104, 2, 11, 5, 9⟩],
    origin_category := [("indigenous", "Native")] }

theorem containsSub_nil (l : List Char) : containsSub [] l = true := by
  cases l <;> simp [containsSub, leadsWith]

theorem icontains_empty (hay : String) : icontains "" hay = true := by
  have h : "".data = ([] : List Char) := rfl
  rw [icontains, h, List.map_nil]
  exact containsSub_nil _

theorem flatten_slices {α : Type} (l : List α) (P : Nat) :
    ∀ k, ((List.range k).map (fun i => (l.drop (i * P)).take P)).flatten = l.take (k * P) := by
  intro k
  induction k with
  | zero => simp
  | succ k ih =>
    rw [List.range_succ, List.map_append, List.flatten_append, ih]
    simp only [List.map_cons, List.map_nil, List.flatten_cons, List.flatten_nil,
      List.append_nil]
    rw [Nat.succ_mul, List.take_add]

theorem paginatedOk_of_mk {α : Type} (gid : Nat) (gname : String) (full : List α)
    (e : Nat → Nat → ApiResult α)
    (he : ∀ q Q, e q Q = ApiResult.ok (mkListResponse gid gname full q Q))
    (p P : Nat) (hp : 1 ≤ p) : PaginatedOk e full p P := by
  have hpp : ∀ Q, (p - 1) * Q + Q = p * Q := by
    intro Q
    cases p with
    | zero => exact absurd hp (by decide)
    | succ n => simp [Nat.succ_mul, Nat.succ_sub_one]
  constructor
  · refine ⟨mkListResponse gid gname full p P, he p P, rfl, ?_, rfl, rfl⟩
    simp [mkListResponse, hpp P]
  · intro k hk
    have hdata : ∀ i : Nat, dataOf (e (i + 1) P) = (full.drop (i * P)).take P := by
      intro i
      rw [he (i + 1) P]
      simp [dataOf, mkListResponse]
    calc ((List.range k).map fun i => dataOf (e (i + 1) P)).flatten
        = ((List.range k).map fun i => (full.drop (i * P)).take P).flatten := by
          exact congrArg List.flatten (List.map_congr_left (fun i _ => hdata i))
      _ = full.take (k * P) := flatten_slices full P k
      _ = full := List.take_of_length_le hk

theorem ordersEndpoint_ok (s : Store) (gid : Nat) (g : TaxonGroup)
    (hg : findTaxonGroup s gid = some g) (p P : Nat) (search : String) :
    ordersEndpoint s gid p P search =
      ApiResult.ok (mkListResponse gid g.name (ordersFullList s g search) p P) := by
  simp [ordersEndpoint, hg]

theorem familiesEndpoint_ok (s : Store) (gid : Nat) (g : TaxonGroup)
    (hg : findTaxonGroup s gid = some g) (p P : Nat) (search : String) :
    familiesEndpoint s gid p P search =
      ApiResult.ok (mkListResponse gid g.name (familiesFullList s g search) p P) := by
  simp [familiesEndpoint, hg]

theorem speciesEndpoint_ok (s : Store) (gid : Nat) (g : TaxonGroup)
    (hg : findTaxonGroup s gid = some g) (p P : Nat) :
    speciesEndpoint s gid p P "" =
      ApiResult.ok (mkListResponse gid g.name (speciesFullList s g) p P) := by
  simp only [speciesEndpoint, hg, ne_eq, not_true_eq_false, if_false]
  simp [mkListResponse, speciesFullList, List.map_take, List.map_drop, List.length_map]

theorem keys_map_fst_dictUpsert {β : Type} (d : List (String × β)) (k : String)
    (v : β) (a : String) :
    a ∈ (dictUpsert d k v).map Prod.fst ↔ a ∈ d.map Prod.fst ∨ a = k := by
  unfold dictUpsert
  by_cases h : d.any (fun kv => kv.1 == k) = true
  · rw [if_pos h]
    have hk : k ∈ d.map Prod.fst := by
      rcases List.any_eq_true.mp h with ⟨kv, hkv, hbeq⟩
      have hfst := List.mem_map_of_mem Prod.fst hkv
      rwa [beq_iff_eq.mp hbeq] at hfst
    have hkeys : (d.map (fun kv => if kv.1 == k then (k, v) else kv)).map Prod.fst
        = d.map Prod.fst := by
      rw [List.map_map]
      refine List.map_congr_left ?_
      intro kv _
      by_cases hb : kv.1 == k
      · simp only [Function.comp_apply, if_pos hb]
        exact (beq_iff_eq.mp hb).symm
      · simp only [Function.comp_apply, if_neg hb]
    rw [hkeys]
    constructor
    · exact Or.inl
    · rintro (h1 | rfl)
      · exact h1
      · exact hk
  · rw [if_neg h]
    simp [List.map_append]

theorem mem_dictUpsert {β : Type} {d : List (String × β)} {k : String} {v : β}
    {kv : String × β} (h : kv ∈ dictUpsert d k v) : kv ∈ d ∨ kv = (k, v) := by
  unfold dictUpsert at h
  by_cases hb : d.any (fun kv => kv.1 == k) = true
  · rw [if_pos hb] at h
    rcases List.mem_map.mp h with ⟨kv', hkv', heq⟩
    by_cases hb2 : kv'.1 == k
    · right; rw [← heq, if_pos hb2]
    · left; rw [← heq, if_neg hb2]; exact hkv'
  · rw [if_neg hb] at h
    rcases List.mem_append.mp h with h1 | h1
    · exact Or.inl h1
    · right; simpa using h1

theorem dictUpsert_append {β : Type} (d : List (String × β)) (k : String) (v : β)
    (h : k ∉ d.map Prod.fst) : dictUpsert d k v = d ++ [(k, v)] := by
  unfold dictUpsert
  rw [if_neg]
  intro hany
  rcases List.any_eq_true.mp hany with ⟨kv, hkv, hbeq⟩
  have hfst := List.mem_map_of_mem Prod.fst hkv
  rw [beq_iff_eq.mp hbeq] at hfst
  exact h hfst

theorem mem_groupCount {l : List String} {k : String} {n : Nat} :
    (k, n) ∈ groupCount l ↔ k ∈ l ∧ n = l.count k := by
  unfold groupCount
  rw [List.mem_map]
  constructor
  · rintro ⟨k', hk', heq⟩
    rw [Prod.mk.injEq] at heq
    rcases heq with ⟨rfl, rfl⟩
    exact ⟨List.mem_dedup.mp hk', rfl⟩
  · rintro ⟨hk, rfl⟩
    exact ⟨k, List.mem_dedup.mpr hk, rfl⟩

theorem translateLoopE_ok (table : List (String × String)) :
    ∀ (l : List (String × Nat)) (d : List (String × Nat)),
      (∀ kc ∈ l, (table.lookup kc.1).isSome) →
      translateLoopE table l d = Except.ok (translateLoop table l d) := by
  intro l
  induction l with
  | nil => intro d _; rfl
  | cons kc l ih =>
    intro d h
    have hkc := h kc (List.mem_cons_self kc l)
    rcases Option.isSome_iff_exists.mp hkc with ⟨lbl, hlbl⟩
    rw [translateLoopE, translateLoop, hlbl]
    exact ih _ (fun kc' h' => h kc' (List.mem_cons_of_mem kc h'))

theorem translateLoopE_error (table : List (String × String)) :
    ∀ (l : List (String × Nat)) (d : List (String × Nat)),
      (∃ kc ∈ l, table.lookup kc.1 = none) →
      translateLoopE table l d = Except.error () := by
  intro l
  induction l with
  | nil => intro d h; simp at h
  | cons kc l ih =>
    intro d h
    rcases h with ⟨kc', hmem, hnone⟩
    rcases List.mem_cons.mp hmem with rfl | hmem'
    · rw [translateLoopE, hnone]
    · cases hlbl : table.lookup kc.1 with
      | none => rw [translateLoopE, hlbl]
      | some lbl =>
        rw [translateLoopE, hlbl]
        exact ih _ ⟨kc', hmem', hnone⟩

theorem translateLoop_filterMap (table : List (String × String)) :
    ∀ (l : List (String × Nat)) (d : List (String × Nat)),
      (l.filterMap (fun kc => table.lookup kc.1)).Nodup →
      (∀ lbl ∈ l.filterMap (fun kc => table.lookup kc.1), lbl ∉ d.map Prod.fst) →
      translateLoop table l d =
        d ++ l.filterMap (fun kc => (table.lookup kc.1).map (fun lbl => (lbl, kc.2))) := by
  intro l
  induction l with
  | nil => intro d _ _; simp [translateLoop]
  | cons kc l ih =>
    intro d hnd hfresh
    cases hlbl : table.lookup kc.1 with
    | none =>
      simp only [translateLoop, hlbl]
      simp only [List.filterMap_cons, hlbl] at hnd hfresh
      rw [ih d hnd hfresh]
      simp only [List.filterMap_cons, hlbl, Option.map_none']
    | some lbl =>
      simp only [translateLoop, hlbl]
      simp only [List.filterMap_cons, hlbl] at hnd hfresh
      have hlblfresh : lbl ∉ d.map Prod.fst := hfresh lbl (List.mem_cons_self lbl _)
      rw [dictUpsert_append d lbl kc.2 hlblfresh]
      have hnd' := (List.nodup_cons.mp hnd).2
      have hnotin := (List.nodup_cons.mp hnd).1
      have hfresh' : ∀ lbl' ∈ l.filterMap (fun kc => table.lookup kc.1),
          lbl' ∉ (d ++ [(lbl, kc.2)]).map Prod.fst := by
        intro lbl' hlbl' hmem
        rw [List.map_append] at hmem
        rcases List.mem_append.mp hmem with hmem1 | hmem1
        · exact hfresh lbl' (List.mem_cons_of_mem lbl hlbl') hmem1
        · have heq : lbl' = lbl := by simpa using hmem1
          exact hnotin (heq ▸ hlbl')
      rw [ih (d ++ [(lbl, kc.2)]) hnd' hfresh']
      simp only [List.filterMap_cons, hlbl, Option.map_some']
      rw [List.append_assoc]
      rfl

theorem foldl_upsert_keys {β : Type} (key : Taxonomy → String) (val : Taxonomy → β)
    (cond : Taxonomy → Bool) :
    ∀ (l : List Taxonomy) (d : List (String × β)) (a : String),
      (a ∈ (l.foldl (fun d t =>
          if cond t then dictUpsert d (key t) (val t) else d) d).map Prod.fst ↔
        a ∈ d.map Prod.fst ∨ ∃ t ∈ l, cond t = true ∧ key t = a) := by
  intro l
  induction l with
  | nil => intro d a; simp
  | cons t l ih =>
    intro d a
    rw [List.foldl_cons]
    by_cases hc : cond t = true
    · rw [if_pos hc, ih, keys_map_fst_dictUpsert]
      constructor
      · rintro ((h | rfl) | ⟨t', ht', hcond', hk'⟩)
        · exact Or.inl h
        · exact Or.inr ⟨t, List.mem_cons_self t l, hc, rfl⟩
        · exact Or.inr ⟨t', List.mem_cons_of_mem t ht', hcond', hk'⟩
      · rintro (h | ⟨t', ht', hcond', hk'⟩)
        · exact Or.inl (Or.inl h)
        · rcases List.mem_cons.mp ht' with rfl | ht''
          · exact Or.inl (Or.inr hk'.symm)
          · exact Or.inr ⟨t', ht'', hcond', hk'⟩
    · rw [if_neg hc, ih]
      constructor
      · rintro (h | ⟨t', ht', hcond', hk'⟩)
        · exact Or.inl h
        · exact Or.inr ⟨t', List.mem_cons_of_mem t ht', hcond', hk'⟩
      · rintro (h | ⟨t', ht', hcond', hk'⟩)
        · exact Or.inl h
        · rcases List.mem_cons.mp ht' with rfl | ht''
          · exact absurd hcond' hc
          · exact Or.inr ⟨t', ht'', hcond', hk'⟩

theorem foldl_upsert_snd {β : Type} (f : β → String) (key : Taxonomy → String)
    (val : Taxonomy → β) (cond : Taxonomy → Bool) (hval : ∀ t, f (val t) = key t) :
    ∀ (l : List Taxonomy) (d : List (String × β)),
      (∀ kv ∈ d, f kv.2 = kv.1) →
      ∀ kv ∈ l.foldl (fun d t =>
          if cond t then dictUpsert d (key t) (val t) else d) d, f kv.2 = kv.1 := by
  intro l
  induction l with
  | nil => intro d hd kv hkv; exact hd kv hkv
  | cons t l ih =>
    intro d hd kv hkv
    rw [List.foldl_cons] at hkv
    by_cases hc : cond t = true
    · rw [if_pos hc] at hkv
      refine ih (dictUpsert d (key t) (val t)) ?_ kv hkv
      intro kv' hkv'
      rcases mem_dictUpsert hkv' with h | rfl
      · exact hd kv' h
      · exact hval t
    · rw [if_neg hc] at hkv
      exact ih d hd kv hkv

theorem mkOrderItem_name (s : Store) (t : Taxonomy) :
    (mkOrderItem s t).name = t.order_name := by
  unfold mkOrderItem
  cases s.parent_by_rank t.id "ORDER" <;> rfl

theorem mkFamilyItem_name (s : Store) (t : Taxonomy) :
    (mkFamilyItem s t).name = t.family_name := by
  unfold mkFamilyItem
  cases s.parent_by_rank t.id "FAMILY" <;> rfl

theorem ordersDict_eq_foldl (s : Store) (g : TaxonGroup) (search : String) :
    ordersDict s g search = (taxonomiesOf s g).foldl
      (fun d t => if t.order_name != "" && icontains search t.order_name then
        dictUpsert d t.order_name (mkOrderItem s t) else d) [] := by
  unfold ordersDict
  have hf : (fun (d : List (String × OrderItem)) (t : Taxonomy) =>
      if t.order_name != "" then
        if icontains search t.order_name then
          dictUpsert d t.order_name (mkOrderItem s t)
        else d
      else d) = (fun d t =>
      if t.order_name != "" && icontains search t.order_name then
        dictUpsert d t.order_name (mkOrderItem s t) else d) := by
    funext d t
    by_cases h1 : t.order_name != ""
    · by_cases h2 : icontains search t.order_name <;> simp [h1, h2]
    · simp [h1]
  rw [hf]

theorem familiesDict_eq_foldl (s : Store) (g : TaxonGroup) (search : String) :
    familiesDict s g search = (taxonomiesOf s g).foldl
      (fun d t => if t.family_name != "" && icontains search t.family_name then
        dictUpsert d t.family_name (mkFamilyItem s t) else d) [] := by
  unfold familiesDict
  have hf : (fun (d : List (String × FamilyItem)) (t : Taxonomy) =>
      if t.family_name != "" then
        if icontains search t.family_name then
          dictUpsert d t.family_name (mkFamilyItem s t)
        else d
      else d) = (fun d t =>
      if t.family_name != "" && icontains search t.family_name then
        dictUpsert d t.family_name (mkFamilyItem s t) else d) := by
    funext d t
    by_cases h1 : t.family_name != ""
    · by_cases h2 : icontains search t.family_name <;> simp [h1, h2]
    · simp [h1]
  rw [hf]

theorem mem_map_mergeSort {α β : Type} (f : α → β) (le : α → α → Bool)
    (l : List α) (b : β) :
    b ∈ (l.mergeSort le).map f ↔ b ∈ l.map f :=
  ((l.mergeSort_perm le).map f).mem_iff

theorem mem_name_ordersFullList (s : Store) (g : TaxonGroup) (search a : String) :
    a ∈ (ordersFullList s g search).map OrderItem.name ↔
      a ∈ orderNamesOf s g ∧ icontains search a = true := by
  unfold ordersFullList
  rw [mem_map_mergeSort]
  have hinv : ∀ kv ∈ ordersDict s g search, OrderItem.name kv.2 = kv.1 := by
    rw [ordersDict_eq_foldl]
    exact foldl_upsert_snd OrderItem.name (fun t => t.order_name) (mkOrderItem s)
      (fun t => t.order_name != "" && icontains search t.order_name)
      (fun t => mkOrderItem_name s t) (taxonomiesOf s g) [] (by simp)
  have hmap : ((ordersDict s g search).map Prod.snd).map OrderItem.name
      = (ordersDict s g search).map Prod.fst := by
    rw [List.map_map]
    exact List.map_congr_left (fun kv hkv => hinv kv hkv)
  rw [hmap, ordersDict_eq_foldl, foldl_upsert_keys]
  simp only [List.map_nil, List.not_mem_nil, false_or]
  constructor
  · rintro ⟨t, ht, hcond, rfl⟩
    rw [Bool.and_eq_true] at hcond
    refine ⟨?_, hcond.2⟩
    rw [orderNamesOf, List.mem_filterMap]
    refine ⟨t, ht, ?_⟩
    rw [if_neg (by simpa using hcond.1)]
  · rintro ⟨hmem, hic⟩
    rw [orderNamesOf, List.mem_filterMap] at hmem
    rcases hmem with ⟨t, ht, hsome⟩
    have hne : t.order_name ≠ "" ∧ t.order_name = a := by
      by_cases h0 : t.order_name = ""
      · rw [if_pos h0] at hsome; cases hsome
      · rw [if_neg h0] at hsome; exact ⟨h0, Option.some.inj hsome⟩
    refine ⟨t, ht, ?_, hne.2⟩
    rw [Bool.and_eq_true]
    exact ⟨by simpa using hne.1, by rw [hne.2]; exact hic⟩

theorem mem_name_familiesFullList (s : Store) (g : TaxonGroup) (search a : String) :
    a ∈ (familiesFullList s g search).map FamilyItem.name ↔
      a ∈ familyNamesOf s g ∧ icontains search a = true := by
  unfold familiesFullList
  rw [mem_map_mergeSort]
  have hinv : ∀ kv ∈ familiesDict s g search, FamilyItem.name kv.2 = kv.1 := by
    rw [familiesDict_eq_foldl]
    exact foldl_upsert_snd FamilyItem.name (fun t => t.family_name) (mkFamilyItem s)
      (fun t => t.family_name != "" && icontains search t.family_name)
      (fun t => mkFamilyItem_name s t) (taxonomiesOf s g) [] (by simp)
  have hmap : ((familiesDict s g search).map Prod.snd).map FamilyItem.name
      = (familiesDict s g search).map Prod.fst := by
    rw [List.map_map]
    exact List.map_congr_left (fun kv hkv => hinv kv hkv)
  rw [hmap, familiesDict_eq_foldl, foldl_upsert_keys]
  simp only [List.map_nil, List.not_mem_nil, false_or]
  constructor
  · rintro ⟨t, ht, hcond, rfl⟩
    rw [Bool.and_eq_true] at hcond
    refine ⟨?_, hcond.2⟩
    rw [familyNamesOf, List.mem_filterMap]
    refine ⟨t, ht, ?_⟩
    rw [if_neg (by simpa using hcond.1)]
  · rintro ⟨hmem, hic⟩
    rw [familyNamesOf, List.mem_filterMap] at hmem
    rcases hmem with ⟨t, ht, hsome⟩
    have hne : t.family_name ≠ "" ∧ t.family_name = a := by
      by_cases h0 : t.family_name = ""
      · rw [if_pos h0] at hsome; cases hsome
      · rw [if_neg h0] at hsome; exact ⟨h0, Option.some.inj hsome⟩
    refine ⟨t, ht, ?_, hne.2⟩
    rw [Bool.and_eq_true]
    exact ⟨by simpa using hne.1, by rw [hne.2]; exact hic⟩

theorem pairwise_name_mergeSort {α : Type} (name : α → String) (l : List α) :
    List.Pairwise (fun a b => name a ≤ name b)
      (l.mergeSort (fun a b => decide (name a ≤ name b))) := by
  have h := @List.sorted_mergeSort α (fun a b => decide (name a ≤ name b))
    (fun a b c hab hbc => by
      simp only [decide_eq_true_eq] at hab hbc ⊢
      exact le_trans hab hbc)
    (fun a b => by
      simp only [Bool.or_eq_true, decide_eq_true_eq]
      exact le_total (name a) (name b)) l
  exact h.imp (fun hab => by simpa using hab)

theorem count_std {α : Type} [DecidableEq α] (i : BEq α) (h : @LawfulBEq α i)
    (a : α) (l : List α) :
    @List.count α i a l = @List.count α instBEqOfDecidableEq a l := by
  induction l with
  | nil => rfl
  | cons x l ih =>
    rw [@List.count_cons α i, @List.count_cons α instBEqOfDecidableEq, ih]
    have e1 := @beq_iff_eq α i h x a
    have e2 := @beq_iff_eq α instBEqOfDecidableEq inferInstance x a
    by_cases hx : x = a
    · rw [if_pos (e1.mpr hx), if_pos (e2.mpr hx)]
    · rw [if_neg (fun hc => hx (e1.mp hc)), if_neg (fun hc => hx (e2.mp hc))]

theorem foldl_pair_sum {γ : Type} (f h : γ → Nat) :
    ∀ (l : List γ) (a b : Nat),
      l.foldl (fun acc g => (acc.1 + f g, acc.2 + h g)) (a, b)
        = (a + (l.map f).sum, b + (l.map h).sum) := by
  intro l
  induction l with
  | nil => intro a b; simp
  | cons g l ih =>
    intro a b
    rw [List.foldl_cons, ih]
    simp [Nat.add_assoc]

/-- C1 (corrected): for a resolved taxon group and page, page size at
least 1, the orders and families endpoints (any search term) and the
species endpoint (empty search term) respond with `total` the full
filtered list's length, `has_next` iff `page * page_size < total`,
`has_previous` iff `page > 1`, `data` the page slice, and the
concatenation of the data of pages `1..k` reproduces the full sorted
filtered list exactly once as soon as `k` pages suffice. -/
theorem pagination_claim_holds (s : Store) (gid : Nat) (g : TaxonGroup) (p P : Nat)
    (search : String) (hg : findTaxonGroup s gid = some g) (hp : 1 ≤ p) (hP : 1 ≤ P) :
    PaginationClaim s gid g p P search := by
  refine ⟨?_, ?_, ?_⟩
  · exact paginatedOk_of_mk gid g.name (ordersFullList s g search) _
      (fun q Q => ordersEndpoint_ok s gid g hg q Q search) p P hp
  · exact paginatedOk_of_mk gid g.name (familiesFullList s g search) _
      (fun q Q => familiesEndpoint_ok s gid g hg q Q search) p P hp
  · rintro rfl
    exact paginatedOk_of_mk gid g.name (speciesFullList s g) _
      (fun q Q => speciesEndpoint_ok s gid g hg q Q) p P hp

/-- C1 counterexample to the claim as stated: at an existing taxon group
(id 1), page 1, page size 1 and search term "a", the species endpoint
produces no response at all (the unhandled NameError on `models.Q`), so
no response flags or page data exist to satisfy the claimed pagination
equations. -/
theorem pagination_species_search_cex :
    speciesEndpoint wStore 1 1 1 "a" = ApiResult.nameError := by decide

/-- C1 witness: the amended pagination property at a concrete store,
group, page 1 and page size 2. -/
theorem pagination_claim_witness :
    findTaxonGroup wStore 1 = some wFish ∧ 1 ≤ 1 ∧ 1 ≤ 2 ∧
      PaginationClaim wStore 1 wFish 1 2 "" :=
  ⟨by decide, by decide, by decide,
   pagination_claim_holds wStore 1 wFish 1 2 "" (by decide) (by decide) (by decide)⟩

/-- C2: a taxon group id that resolves to no TaxonGroup gives, on all
three listing endpoints, exactly the 404 response with body
error = "Taxon group not found", and nothing else. -/
theorem notfound_claim (s : Store) (gid : Nat) (h : findTaxonGroup s gid = none)
    (p P : Nat) (search : String) :
    ordersEndpoint s gid p P search = ApiResult.failure 404 "Taxon group not found"
    ∧ familiesEndpoint s gid p P search = ApiResult.failure 404 "Taxon group not found"
    ∧ speciesEndpoint s gid p P search = ApiResult.failure 404 "Taxon group not found" := by
  refine ⟨?_, ?_, ?_⟩ <;> simp [ordersEndpoint, familiesEndpoint, speciesEndpoint, h]

/-- C2 witness: the 404 responses at a concrete store and the unknown
id 99. -/
theorem notfound_claim_witness :
    findTaxonGroup wStore 99 = none ∧
      (ordersEndpoint wStore 99 1 50 "" = ApiResult.failure 404 "Taxon group not found"
       ∧ familiesEndpoint wStore 99 1 50 "" = ApiResult.failure 404 "Taxon group not found"
       ∧ speciesEndpoint wStore 99 1 50 "" = ApiResult.failure 404 "Taxon group not found") :=
  ⟨by decide, notfound_claim wStore 99 (by decide) 1 50 ""⟩

/-- C3 (code bug): the in-memory search of the orders and families
listings selects exactly the names containing the search term
case-insensitively, and the empty search matches every name; but the
species endpoint, where the claim says the persistence-layer filter
selects by canonical or scientific name, instead dies with the NameError
(shown here at a concrete existing group and the search term "fish"),
because the code references the undefined name `models`. -/
theorem search_semantics_claim :
    (∀ (s : Store) (g : TaxonGroup) (search a : String),
        a ∈ (ordersFullList s g search).map OrderItem.name ↔
          a ∈ orderNamesOf s g ∧ icontains search a = true)
    ∧ (∀ (s : Store) (g : TaxonGroup) (search a : String),
        a ∈ (familiesFullList s g search).map FamilyItem.name ↔
          a ∈ familyNamesOf s g ∧ icontains search a = true)
    ∧ (∀ hay : String, icontains "" hay = true)
    ∧ speciesEndpoint wStore 2 1 50 "fish" = ApiResult.nameError :=
  ⟨mem_name_ordersFullList, mem_name_familiesFullList, icontains_empty, by decide⟩

/-- C4: in origin chart mode the summary counts records grouped by
non-empty origin code, translates each grouped code through the origin
lookup, and fails with a KeyError exactly when some grouped code is
absent from the lookup. -/
theorem origin_chart_claim (s : Store) (g : TaxonGroup)
    (hc : g.chart_data = "origin") : OriginChartClaim s g := by
  refine ⟨?_, ?_, ?_⟩
  · intro h
    unfold module_summary_data
    rw [hc, if_neg (by decide), if_pos rfl,
      show translateDictE s.origin_category (groupedOrigin s g) = Except.error () from
        translateLoopE_error s.origin_category (groupedOrigin s g) [] h]
  · intro h
    refine ⟨{ msdBase s g with
        origin := some (translateDict s.origin_category (groupedOrigin s g)) }, ?_, rfl⟩
    unfold module_summary_data
    rw [hc, if_neg (by decide), if_pos rfl,
      show translateDictE s.origin_category (groupedOrigin s g)
          = Except.ok (translateDict s.origin_category (groupedOrigin s g)) from
        translateLoopE_ok s.origin_category (groupedOrigin s g) [] h]
  · intro code n
    have hcf : ∀ hne : code ≠ "",
        (originCodesNE s g).count code = (originCodes s g).count code := by
      intro hne
      exact @List.count_filter String _ _ (fun c => c != "") code (originCodes s g)
        (by simpa using hne)
    unfold groupedOrigin
    rw [mem_groupCount]
    constructor
    · rintro ⟨hmem, rfl⟩
      rw [originCodesNE, List.mem_filter] at hmem
      have hne : code ≠ "" := by simpa using hmem.2
      exact ⟨hne, hmem.1, hcf hne⟩
    · rintro ⟨hne, hmem, rfl⟩
      refine ⟨List.mem_filter.mpr ⟨hmem, by simpa using hne⟩, (hcf hne).symm⟩

/-- C4 witness: the origin chart property at two concrete stores, one
with every code present in the lookup and one with a code missing, the
latter shown to make the whole summary fail. -/
theorem origin_chart_witness :
    wInverts.chart_data = "origin" ∧ OriginChartClaim wStore wInverts
    ∧ OriginChartClaim wStoreBadOrigin wInverts
    ∧ module_summary_data wStoreBadOrigin wInverts = Except.error () :=
  ⟨by decide, origin_chart_claim wStore wInverts (by decide),
   origin_chart_claim wStoreBadOrigin wInverts (by decide), by decide⟩

/-- C5: in the default chart mode the conservation-status section equals
the record counts grouped by status value (empty-origin records excluded,
null references counted as Not evaluated) restricted to the codes present
in the IUCN lookup and translated to their labels, all other codes
silently dropped; stated under distinctness of the translated labels,
which the dict-shaped output presupposes. -/
theorem conservation_claim (s : Store) (g : TaxonGroup)
    (h1 : g.chart_data ≠ "division") (h2 : g.chart_data ≠ "origin")
    (h3 : g.chart_data ≠ "endemism") (h4 : g.chart_data ≠ "sass")
    (hlbl : ((groupedCS s g).filterMap (fun kc => s.iucn_category.lookup kc.1)).Nodup) :
    ∃ d, module_summary_data s g = Except.ok d ∧
      d.conservation_status = some (iucnSpec s g) := by
  refine ⟨{ msdBase s g with
      conservation_status := some (translateDict s.iucn_category (groupedCS s g)) },
    ?_, ?_⟩
  · unfold module_summary_data
    rw [if_neg h1, if_neg h2, if_neg h3, if_neg h4]
  · have heq : translateDict s.iucn_category (groupedCS s g) = iucnSpec s g := by
      unfold translateDict
      rw [translateLoop_filterMap s.iucn_category (groupedCS s g) [] hlbl (by simp),
        List.nil_append]
      unfold iucnSpec groupedCS groupCount
      rw [List.filterMap_map]
      rfl
    rw [show ({ msdBase s g with
        conservation_status :=
          some (translateDict s.iucn_category (groupedCS s g)) } :
        ModuleSummaryData).conservation_status
        = some (translateDict s.iucn_category (groupedCS s g)) from rfl, heq]

/-- C5 witness: the conservation-status property at a concrete store and
default-chart group. -/
theorem conservation_claim_witness :
    (wFish.chart_data ≠ "division" ∧ wFish.chart_data ≠ "origin"
      ∧ wFish.chart_data ≠ "endemism" ∧ wFish.chart_data ≠ "sass")
    ∧ ((groupedCS wStore wFish).filterMap
        (fun kc => wStore.iucn_category.lookup kc.1)).Nodup
    ∧ ∃ d, module_summary_data wStore wFish = Except.ok d ∧
        d.conservation_status = some (iucnSpec wStore wFish) :=
  ⟨⟨by decide, by decide, by decide, by decide⟩, by decide,
   conservation_claim wStore wFish (by decide) (by decide) (by decide) (by decide)
     (by decide)⟩

/-- C6: in sass chart mode `total_sass` is the count of all SiteVisit
rows in the store, not filtered by the taxon group. -/
theorem sass_total_claim (s : Store) (g : TaxonGroup)
    (hc : g.chart_data = "sass") :
    ∃ d, module_summary_data s g = Except.ok d ∧
      d.total_sass = some s.siteVisits.length := by
  refine ⟨{ msdBase s g with ecological_data := some (ecoData s), total_sass := some s.siteVisits.length }, ?_, rfl⟩
  unfold module_summary_data
  rw [hc, if_neg (by decide), if_neg (by decide), if_neg (by decide), if_pos rfl]

/-- C6 witness: the global `total_sass` at a concrete store and
sass-chart group. -/
theorem sass_total_witness :
    wAlgae.chart_data = "sass" ∧
      ∃ d, module_summary_data wStore wAlgae = Except.ok d ∧
        d.total_sass = some wStore.siteVisits.length :=
  ⟨by decide, sass_total_claim wStore wAlgae (by decide)⟩

/-- C7: the general summary's `total_occurrences` and `total_taxa` are
the sums, over the species-module taxon groups, of each group's record
count and of each group's count of distinct taxonomy ids among its
records; a taxonomy referenced from several groups is counted once per
group. -/
theorem general_summary_claim (s : Store) :
    (general_summary_data s).total_occurrences
        = ((speciesModuleGroups s).map (fun g => (recordsOf s g).length)).sum
    ∧ (general_summary_data s).total_taxa
        = ((speciesModuleGroups s).map
            (fun g => ((recordsOf s g).map (fun r => r.taxonomy)).dedup.length)).sum := by
  unfold general_summary_data
  rw [foldl_pair_sum (fun g => (recordsOf s g).length)
    (fun g => (uniqueTaxonomyIds s g).length) (speciesModuleGroups s) 0 0]
  constructor
  · simp
  · simp [uniqueTaxonomyIds]

/-- C8: the full pre-pagination orders and families listings are sorted
ascending by name. -/
theorem listings_sorted (s : Store) (g : TaxonGroup) (search : String) :
    List.Pairwise (fun a b : OrderItem => a.name ≤ b.name) (ordersFullList s g search)
    ∧ List.Pairwise (fun a b : FamilyItem => a.name ≤ b.name)
        (familiesFullList s g search) :=
  ⟨pairwise_name_mergeSort OrderItem.name _, pairwise_name_mergeSort FamilyItem.name _⟩

/-- C9: on the species listing of an existing taxon group every
non-empty search term hits the unresolved name `models` and the request
fails with a NameError before any response; the empty search term
succeeds. -/
theorem species_search_claim (s : Store) (gid : Nat) (g : TaxonGroup) (p P : Nat)
    (hg : findTaxonGroup s gid = some g) :
    (∀ search : String, search ≠ "" →
        speciesEndpoint s gid p P search = ApiResult.nameError)
    ∧ ∃ r, speciesEndpoint s gid p P "" = ApiResult.ok r := by
  constructor
  · intro search hs
    simp [speciesEndpoint, hg, hs]
  · exact ⟨_, speciesEndpoint_ok s gid g hg p P⟩

/-- C9 witness: the NameError and the empty-search success at a concrete
store and group. -/
theorem species_search_witness :
    findTaxonGroup wStore 1 = some wFish ∧
      ((∀ search : String, search ≠ "" →
          speciesEndpoint wStore 1 1 50 search = ApiResult.nameError)
       ∧ ∃ r, speciesEndpoint wStore 1 1 50 "" = ApiResult.ok r) :=
  ⟨by decide, species_search_claim wStore 1 wFish 1 50 (by decide)⟩

/-- C10: two sass-chart taxon groups receive identical ecological data
and SiteVisit totals, both computed from the store alone; the ecological
counts sum to the number of SiteVisitTaxon rows with a non-null
ecological condition, group-independent. -/
theorem sass_hyper_claim (s : Store) (g g' : TaxonGroup)
    (hc : g.chart_data = "sass") (hc' : g'.chart_data = "sass") :
    SassHyperClaim s g g' := by
  refine ⟨{ msdBase s g with ecological_data := some (ecoData s), total_sass := some s.siteVisits.length },
    { msdBase s g' with ecological_data := some (ecoData s), total_sass := some s.siteVisits.length },
    ?_, ?_, rfl, rfl, rfl, rfl, ?_⟩
  · unfold module_summary_data
    rw [hc, if_neg (by decide), if_neg (by decide), if_neg (by decide), if_pos rfl]
  · unfold module_summary_data
    rw [hc', if_neg (by decide), if_neg (by decide), if_neg (by decide), if_pos rfl]
  · unfold ecoData
    have hperm := List.mergeSort_perm
      ((ecoPairs s).dedup.map (fun vc => EcoRow.mk vc.1 ((ecoPairs s).count vc) vc.2))
      (fun a b => decide (a.value ≤ b.value))
    rw [(hperm.map EcoRow.count).sum_eq, List.map_map]
    rw [show (EcoRow.count ∘ fun vc : String × String =>
        EcoRow.mk vc.1 ((ecoPairs s).count vc) vc.2)
        = fun vc => (ecoPairs s).count vc from rfl]
    rw [List.map_congr_left
      (fun vc _ => count_std _ inferInstance vc (ecoPairs s))]
    exact List.sum_map_count_dedup_eq_length (ecoPairs s)

/-- C10 witness: identical sass outputs for two concrete sass-chart
groups of one store. -/
theorem sass_hyper_witness :
    wAlgae.chart_data = "sass" ∧ wOdonates.chart_data = "sass" ∧
      SassHyperClaim wStore wAlgae wOdonates :=
  ⟨by decide, by decide, sass_hyper_claim wStore wAlgae wOdonates (by decide) (by decide)⟩

end BimsModuleSummary
